import Mathlib

/-!
# Verification of the VVCode authentication service

Shallow embedding of `src/services/auth/vv/VVAuthService.ts` from the
`vv-code` repository: the PKCE authentication handshake, group switching,
logout and the status-subscription registry, together with proofs of the
specification's claims about them.

The host's key-value persistence layer is modelled as a pair of stores
(`cache` for the in-memory StateManager view, `disk` for the durable
`context.globalState`/secret backend).  `setGlobalState`/`setSecret`
write to the cache; `flushPendingState` copies the cache to disk;
`getGlobalStateKey`/`getSecretKey` read from the cache, while the
fallback `context.globalState.get` path reads from disk.  The remote
auth provider is a record of result-valued functions, so a run of the
service is deterministic given the provider's answers.
-/

namespace VVAuth

/-- JavaScript string-falsiness of an optional string: `undefined`/absent or
the empty string count as falsy (`!x` is true). -/
def jsFalsyStr : Option String → Bool
  | none => true
  | some s => s.isEmpty

/-- Whether the second character list occurs at the head of the first. -/
def listHasPre : List Char → List Char → Bool
  | _, [] => true
  | [], _ :: _ => false
  | c :: cs, p :: ps => c == p && listHasPre cs ps

/-- Whether the second character list occurs anywhere inside the first. -/
def listHasSub : List Char → List Char → Bool
  | [], pat => pat.isEmpty
  | c :: cs, pat => listHasPre (c :: cs) pat || listHasSub cs pat

/-- JavaScript `String.prototype.includes`: substring containment
(an empty pattern is always contained). -/
def jsIncludes (s pat : String) : Bool :=
  listHasSub s.data pat.data

/-- User profile record (`VVUserInfo` from the shared state keys; the fields
beyond `username` are irrelevant to the service, which stores it wholesale). -/
structure VVUserInfo where
  username : String
deriving DecidableEq, Repr

/-- User configuration record, stored wholesale and never inspected. -/
structure VVUserConfig where
  payload : String
deriving DecidableEq, Repr

/-- One group entry of the group/token configuration
(`VVGroupItem`): a named bundle of API credentials. -/
structure VVGroupItem where
  type : String
  apiKey : Option String
  defaultModelId : Option String
  apiBaseUrl : Option String
  isDefault : Bool
deriving DecidableEq, Repr

/-- `VVGroupConfig`: an ordered collection of group items. -/
abbrev VVGroupConfig := List VVGroupItem

/-- Result of the code-for-token exchange (`VVAuthInfo`). -/
structure VVAuthInfo where
  accessToken : String
  userId : Nat
deriving DecidableEq, Repr

/-- The persisted key-value state touched by the auth service: the
`vv:*` transient session keys, the durable user/group records, the host
API settings, and the secret namespace keys. -/
structure Store where
  authState : Option String := none
  codeVerifier : Option String := none
  vvUserInfo : Option VVUserInfo := none
  vvUserConfig : Option VVUserConfig := none
  vvGroupConfig : Option VVGroupConfig := none
  planModeApiModelId : Option String := none
  actModeApiModelId : Option String := none
  anthropicBaseUrl : Option String := none
  accessToken : Option String := none
  refreshToken : Option String := none
  userId : Option String := none
  apiKey : Option String := none
deriving DecidableEq, Repr

/-- The StateManager: an in-memory cache over the durable backend.
Writes go to `cache`; `flushPendingState` persists them to `disk`. -/
structure StateManager where
  cache : Store := {}
  disk : Store := {}
deriving DecidableEq, Repr

/-- `flushPendingState`: force-persist all pending writes. -/
def flushPendingState (sm : StateManager) : StateManager :=
  { sm with disk := sm.cache }

/-- Environment configuration read from `process.env` by
`applyGroupConfig`: the `IS_DEV` flag and the `DEV_BASE_URL` override. -/
structure Env where
  isDevVar : Option String := none
  devBaseUrlVar : Option String := none

/-- `process.env.IS_DEV === "true"`. -/
def Env.isDev (e : Env) : Bool := e.isDevVar == some "true"

/-- `process.env.DEV_BASE_URL || "http://127.0.0.1:3000"` (falsy fallback). -/
def Env.devBaseUrl (e : Env) : String :=
  match e.devBaseUrlVar with
  | some s => if s.isEmpty then "http://127.0.0.1:3000" else s
  | none => "http://127.0.0.1:3000"

/-- The remote auth provider (`VVAuthProvider`): each operation takes its
arguments and answers with a result or a thrown error message.  A record of
functions stands for one fixed behaviour of the remote server during a run. -/
structure Provider where
  exchangeCodeForToken : String → String → String → Except String VVAuthInfo
  getUserInfo : String → Nat → Except String VVUserInfo
  getUserConfig : String → Nat → Except String VVUserConfig
  getGroupTokens : String → Nat → Except String VVGroupConfig
  logout : String → Except String Unit

/-- The streamed authentication status: `{ user?: VVUserInfo }`. -/
abbrev VVAuthState := Option VVUserInfo

/-- A registered status subscriber: an identity (TS uses object reference
equality in the `Set`) and its delivery callback, which reports whether
streaming the update succeeded. -/
structure Subscriber where
  id : Nat
  deliver : VVAuthState → Bool

/-- Full state of the `VVAuthService` singleton: the StateManager, the
in-memory flags, the subscription registry, a log of every delivery attempt
`(subscriber id, status sent, delivery succeeded)`, and a count of calls made
to the provider's token exchange (for the idempotency claims). -/
structure ServiceState where
  sm : StateManager := {}
  authenticated : Bool := false
  processingAuthCallback : Bool := false
  lastProcessedCode : Option String := none
  subscribers : List Subscriber := []
  deliveryLog : List (Nat × VVAuthState × Bool) := []
  exchangeCount : Nat := 0

/-- `getInfo()`: the current status, read from the stored user info. -/
def getInfo (s : ServiceState) : VVAuthState := s.sm.cache.vvUserInfo

/-- `isAuthenticated`: `!!getSecretKey("vv:accessToken")`. -/
def isAuthenticated (s : ServiceState) : Bool :=
  !(jsFalsyStr s.sm.cache.accessToken)

/-- `getAccessToken()`. -/
def getAccessToken (s : ServiceState) : Option String :=
  s.sm.cache.accessToken

/-- `sendAuthStatusUpdate()`: deliver the current status to every active
subscriber; a subscriber whose delivery fails is removed from the registry,
and each delivery is attempted independently of the others' outcomes. -/
def sendAuthStatusUpdate (s : ServiceState) : ServiceState :=
  let authState := getInfo s
  { s with
    subscribers := s.subscribers.filter (fun sub => sub.deliver authState)
    deliveryLog := s.deliveryLog ++
      s.subscribers.map (fun sub => (sub.id, authState, sub.deliver authState)) }

/-- `subscribeToAuthStatusUpdate`: register the subscriber and immediately
send it the current status once (an initial-delivery failure is only logged;
it does not remove the subscriber). -/
def subscribeToAuthStatusUpdate (sub : Subscriber) (s : ServiceState) :
    ServiceState :=
  { s with
    subscribers := s.subscribers ++ [sub]
    deliveryLog := s.deliveryLog ++ [(sub.id, getInfo s, sub.deliver (getInfo s))] }

/-- The cancellation function returned by `subscribeToAuthStatusUpdate`:
delete the subscription from the registry. -/
def unsubscribe (i : Nat) (s : ServiceState) : ServiceState :=
  { s with subscribers := s.subscribers.filter (fun sub => sub.id ≠ i) }

/-- `applyGroupConfig(group)`: write the group's API key as a secret, its
model id as both plan- and act-mode model selections, and its base URL
(dev mode substitutes the local dev URL; a falsy URL is not written),
then flush immediately. -/
def applyGroupConfig (env : Env) (group : VVGroupItem) (s : ServiceState) :
    ServiceState :=
  let c1 := { s.sm.cache with
    apiKey := group.apiKey
    planModeApiModelId := group.defaultModelId
    actModeApiModelId := group.defaultModelId }
  let baseUrl : Option String :=
    if env.isDev then some env.devBaseUrl else group.apiBaseUrl
  let c2 :=
    if jsFalsyStr baseUrl then c1
    else { c1 with anthropicBaseUrl := baseUrl }
  { s with sm := flushPendingState { s.sm with cache := c2 } }

/-- `switchGroup(groupType)`: look up the group by type; fail (state
untouched) if the config is absent, the type unknown, or the group's API key
falsy; otherwise re-flag `isDefault` on every item by type match, persist,
apply the selected group, flush and broadcast. -/
def switchGroup (env : Env) (groupType : String) (s : ServiceState) :
    ServiceState × Except String Unit :=
  match s.sm.cache.vvGroupConfig with
  | none => (s, .error "Group config not found. Please login first.")
  | some groupConfig =>
    match groupConfig.find? (fun g => g.type == groupType) with
    | none => (s, .error ("Group \"" ++ groupType ++ "\" not found"))
    | some targetGroup =>
      if jsFalsyStr targetGroup.apiKey then
        (s, .error ("Group \"" ++ groupType ++
          "\" has no API key configured. Please configure it first."))
      else
        let updatedConfig := groupConfig.map (fun g =>
          { g with isDefault := g.type == groupType })
        let s1 := { s with sm :=
          { s.sm with cache :=
            { s.sm.cache with vvGroupConfig := some updatedConfig } } }
        let s2 := applyGroupConfig env targetGroup s1
        let s3 := { s2 with sm := flushPendingState s2.sm }
        (sendAuthStatusUpdate s3, .ok ())

/-- `handleDeauth()`: best-effort revoke (result discarded), unconditionally
clear access/refresh tokens, user info, user config and the transient session
keys, flush, drop the authenticated flag, broadcast. -/
def handleDeauth (p : Provider) (s : ServiceState) : ServiceState :=
  let _revoked : Option (Except String Unit) :=
    s.sm.cache.accessToken.map p.logout
  let c1 := { s.sm.cache with
    accessToken := none
    refreshToken := none
    vvUserInfo := none
    vvUserConfig := none
    authState := none
    codeVerifier := none }
  let s1 := { s with
    sm := flushPendingState { s.sm with cache := c1 }
    authenticated := false }
  sendAuthStatusUpdate s1

/-- An authorization URL: the login-page base plus its query parameters,
in insertion order. -/
structure AuthUrl where
  base : String
  params : List (String × String)
deriving DecidableEq, Repr

/-- The fixed callback URI `vscode://<publisher>.<extension>/vv-callback`. -/
def callbackUri : String := "vscode://PiuQiuPiaQia.vvcode/vv-callback"

/-- Outcome of `createAuthRequest`: the updated StateManager, the URL passed
to the external-browser launcher (if reached), and the returned URL or the
thrown error. -/
structure CreateAuthResult where
  sm : StateManager
  opened : Option AuthUrl
  result : Except String AuthUrl

/-- `createAuthRequest()`: persist the generated `state` and code verifier,
force-flush, read both back and fail with a retry-prompting error if either
read-back is falsy; otherwise build the authorization URL carrying `state`,
the challenge derived from the verifier, and the callback URI, open it in
the browser and return it.  The generated random values and the
`generateCodeChallenge` transform (SHA-256/base64url, defined outside this
repository's sources) enter as parameters. -/
def createAuthRequest (challengeOf : String → String) (authPageUrl : String)
    (state codeVerifier : String) (sm : StateManager) : CreateAuthResult :=
  let codeChallenge := challengeOf codeVerifier
  let sm1 := flushPendingState
    { sm with cache :=
      { sm.cache with authState := some state, codeVerifier := some codeVerifier } }
  let savedState := sm1.cache.authState
  let savedVerifier := sm1.cache.codeVerifier
  if jsFalsyStr savedState || jsFalsyStr savedVerifier then
    { sm := sm1, opened := none
      result := .error "Failed to save authentication state. Please try again." }
  else
    let authUrl : AuthUrl :=
      { base := authPageUrl
        params := [("state", state), ("code_challenge", codeChallenge),
                   ("redirect_uri", callbackUri)] }
    { sm := sm1, opened := some authUrl, result := .ok authUrl }

/-- The `try` body of `handleAuthCallback` (steps 1–11): session lookup with
the `context.globalState` fallback, CSRF check, verifier lookup, token
exchange, secret/user/config/group persistence, flush, transient cleanup,
code recording and broadcast.  The exchange counter is bumped exactly when
`exchangeCodeForToken` is invoked. -/
def handleAuthCallbackBody (env : Env) (p : Provider) (code state : String)
    (s : ServiceState) : ServiceState × Except String Unit :=
  let storedState0 := s.sm.cache.authState
  let storedState :=
    if jsFalsyStr storedState0 then s.sm.disk.authState else storedState0
  if jsFalsyStr storedState then
    (s, .error ("Authentication state not found. This may happen if the " ++
      "extension was reloaded. Please try logging in again."))
  else if state ≠ storedState.getD "" then
    (s, .error "Invalid state parameter - possible CSRF attack")
  else
    let verifier0 := s.sm.cache.codeVerifier
    let verifier :=
      if jsFalsyStr verifier0 then s.sm.disk.codeVerifier else verifier0
    if jsFalsyStr verifier then
      (s, .error "Code verifier not found. Please try logging in again.")
    else
      let s1 := { s with exchangeCount := s.exchangeCount + 1 }
      match p.exchangeCodeForToken code (verifier.getD "") state with
      | .error e => (s1, .error e)
      | .ok authInfo =>
        let s2 := { s1 with sm :=
          { s1.sm with cache :=
            { s1.sm.cache with
              accessToken := some authInfo.accessToken
              userId := some (toString authInfo.userId) } } }
        match p.getUserInfo authInfo.accessToken authInfo.userId with
        | .error e => (s2, .error e)
        | .ok userInfo =>
          let s3 := { s2 with sm :=
            { s2.sm with cache :=
              { s2.sm.cache with vvUserInfo := some userInfo } } }
          let s4 :=
            match p.getUserConfig authInfo.accessToken authInfo.userId with
            | .ok userConfig =>
              { s3 with sm :=
                { s3.sm with cache :=
                  { s3.sm.cache with vvUserConfig := some userConfig } } }
            | .error _ => s3
          let s5 :=
            match p.getGroupTokens authInfo.accessToken authInfo.userId with
            | .ok groupConfig =>
              let sA := { s4 with sm :=
                { s4.sm with cache :=
                  { s4.sm.cache with vvGroupConfig := some groupConfig } } }
              match groupConfig.find? (fun g : VVGroupItem => g.isDefault) with
              | some defaultGroup =>
                if jsFalsyStr defaultGroup.apiKey then sA
                else applyGroupConfig env defaultGroup sA
              | none => sA
            | .error _ => s4
          let s6 := { s5 with sm := flushPendingState s5.sm }
          let smCleared := { s6.sm with cache :=
            { s6.sm.cache with authState := none, codeVerifier := none } }
          let s7 := { s6 with sm := flushPendingState smCleared }
          let s8 := { s7 with
            lastProcessedCode := some code
            authenticated := true }
          (sendAuthStatusUpdate s8, .ok ())

/-- The `catch` classification of `handleAuthCallback`: a 429 / rate-limit
substring yields the specific rate-limit message, anything else the generic
wrapper carrying the original message. -/
def classifyAuthError (msg : String) : String :=
  if jsIncludes msg "Too Many Requests" || jsIncludes msg "429" then
    "Authentication rate limit exceeded. Please wait a moment and try logging in again."
  else
    "Authentication failed: " ++ msg

/-- `handleAuthCallback(code, state)`: silent no-op when already processing
or when `code` equals the last successfully processed code; otherwise raise
the processing guard, run the body, and on failure clear the transient
session, flush, and re-raise the classified error; the guard is dropped on
every exit path (`finally`). -/
def handleAuthCallback (env : Env) (p : Provider) (code state : String)
    (s : ServiceState) : ServiceState × Except String Unit :=
  if s.processingAuthCallback then (s, .ok ())
  else if s.lastProcessedCode == some code then (s, .ok ())
  else
    let s0 := { s with processingAuthCallback := true }
    match handleAuthCallbackBody env p code state s0 with
    | (s1, .ok ()) => ({ s1 with processingAuthCallback := false }, .ok ())
    | (s1, .error msg) =>
      let smCleared := { s1.sm with cache :=
        { s1.sm.cache with authState := none, codeVerifier := none } }
      let s2 := { s1 with sm := flushPendingState smCleared }
      ({ s2 with processingAuthCallback := false },
        .error (classifyAuthError msg))

/-! ## Concrete fixtures

Closed instances of the data model, used to evaluate the service on
concrete inputs (witnesses and counterexamples). -/

/-- The default environment: no `IS_DEV`, no `DEV_BASE_URL` (production). -/
def env0 : Env := {}

/-- A group item with every field configured but not flagged default. -/
def okGroupItem : VVGroupItem :=
  { type := "daily", apiKey := some "k", defaultModelId := some "m"
    apiBaseUrl := some "b", isDefault := false }

/-- A provider for which every call succeeds; the group config it returns
is non-empty but contains no item flagged `isDefault`. -/
def okProvider : Provider :=
  { exchangeCodeForToken := fun _ _ _ => .ok { accessToken := "tok", userId := 7 }
    getUserInfo := fun _ _ => .ok { username := "alice" }
    getUserConfig := fun _ _ => .ok { payload := "cfg" }
    getGroupTokens := fun _ _ => .ok [okGroupItem]
    logout := fun _ => .ok () }

/-- Same provider except the (required) user-info fetch fails. -/
def failUserInfoProvider : Provider :=
  { okProvider with getUserInfo := fun _ _ => .error "user info unavailable" }

/-- A store holding a persisted authentication session `(S, V)`. -/
def sessionStore : Store := { authState := some "S", codeVerifier := some "V" }

/-- A service state with the session `(S, V)` persisted and flushed. -/
def sessionState : ServiceState :=
  { sm := { cache := sessionStore, disk := sessionStore } }

/-- Two distinct groups that share the same `type`. -/
def dupItemA : VVGroupItem :=
  { type := "daily", apiKey := some "k1", defaultModelId := some "m1"
    apiBaseUrl := some "b1", isDefault := false }

/-- Second group of the duplicated type. -/
def dupItemB : VVGroupItem :=
  { type := "daily", apiKey := some "k2", defaultModelId := some "m2"
    apiBaseUrl := some "b2", isDefault := false }

/-- A service state whose stored group config has two items of type
`"daily"`. -/
def dupState : ServiceState :=
  { sm := { cache := { vvGroupConfig := some [dupItemA, dupItemB] } } }

/-- A subscriber whose deliveries always succeed. -/
def subA : Subscriber := { id := 1, deliver := fun _ => true }

/-- A subscriber whose deliveries always fail. -/
def subB : Subscriber := { id := 2, deliver := fun _ => false }

/-- A service state with the two subscribers registered. -/
def regState : ServiceState := { subscribers := [subA, subB] }

/-- A concrete stand-in for the deterministic challenge derivation. -/
def chalOf (v : String) : String := "challenge-" ++ v

/-- A group item flagged as the default, with every field configured. -/
def defaultGroupItem : VVGroupItem :=
  { type := "performance", apiKey := some "gk", defaultModelId := some "gm"
    apiBaseUrl := some "gb", isDefault := true }

/-- A provider whose group config contains a default item with an API key. -/
def groupProvider : Provider :=
  { okProvider with
    getGroupTokens := fun _ _ => .ok [okGroupItem, defaultGroupItem] }

/-- A service state in which a callback is already being processed. -/
def procState : ServiceState := { processingAuthCallback := true }

/-! ## Helper lemmas -/

@[simp]
theorem jsFalsyStr_some (x : String) : jsFalsyStr (some x) = x.isEmpty := rfl

@[simp]
theorem jsFalsyStr_none : jsFalsyStr none = true := rfl

@[simp]
theorem flushPendingState_cache (sm : StateManager) :
    (flushPendingState sm).cache = sm.cache := rfl

@[simp]
theorem flushPendingState_disk (sm : StateManager) :
    (flushPendingState sm).disk = sm.cache := rfl

@[simp]
theorem sendAuthStatusUpdate_sm (s : ServiceState) :
    (sendAuthStatusUpdate s).sm = s.sm := rfl

@[simp]
theorem sendAuthStatusUpdate_exchangeCount (s : ServiceState) :
    (sendAuthStatusUpdate s).exchangeCount = s.exchangeCount := rfl

@[simp]
theorem sendAuthStatusUpdate_lastProcessedCode (s : ServiceState) :
    (sendAuthStatusUpdate s).lastProcessedCode = s.lastProcessedCode := rfl

@[simp]
theorem sendAuthStatusUpdate_processing (s : ServiceState) :
    (sendAuthStatusUpdate s).processingAuthCallback = s.processingAuthCallback :=
  rfl

@[simp]
theorem sendAuthStatusUpdate_authenticated (s : ServiceState) :
    (sendAuthStatusUpdate s).authenticated = s.authenticated := rfl

@[simp]
theorem applyGroupConfig_exchangeCount (env : Env) (g : VVGroupItem)
    (s : ServiceState) :
    (applyGroupConfig env g s).exchangeCount = s.exchangeCount := by
  simp [applyGroupConfig]

@[simp]
theorem applyGroupConfig_lastProcessedCode (env : Env) (g : VVGroupItem)
    (s : ServiceState) :
    (applyGroupConfig env g s).lastProcessedCode = s.lastProcessedCode := by
  simp [applyGroupConfig]

@[simp]
theorem applyGroupConfig_processing (env : Env) (g : VVGroupItem)
    (s : ServiceState) :
    (applyGroupConfig env g s).processingAuthCallback =
      s.processingAuthCallback := by
  simp [applyGroupConfig]

/-! ## Claims -/

/-- Claim C5: `switchGroup(groupType)` with no matching item in the stored
`GroupConfig` raises the group-not-found error and leaves the entire service
state (stored config, apiKey secret, model ids, base URL — everything)
unchanged; with a matching item whose API key is not configured it raises
the missing-key error, likewise with all state unchanged. -/
theorem switchGroup_failure_unchanged (env : Env) (groupType : String)
    (s : ServiceState) (cfg : VVGroupConfig)
    (hcfg : s.sm.cache.vvGroupConfig = some cfg) :
    (cfg.find? (fun g => g.type == groupType) = none →
      switchGroup env groupType s =
        (s, .error ("Group \"" ++ groupType ++ "\" not found"))) ∧
    (∀ tg, cfg.find? (fun g => g.type == groupType) = some tg →
      jsFalsyStr tg.apiKey = true →
      switchGroup env groupType s =
        (s, .error ("Group \"" ++ groupType ++
          "\" has no API key configured. Please configure it first."))) := by
  constructor
  · intro hfind
    simp [switchGroup, hcfg, hfind]
  · intro tg hfind hkey
    simp [switchGroup, hcfg, hfind, hkey]

/-- Witness for C5: a concrete state whose config has only a `"daily"` group,
queried for the absent type `"nope"`. -/
theorem switchGroup_failure_unchanged_witness :
    switchGroup env0 "nope" dupState =
      (dupState, .error "Group \"nope\" not found") := by
  have h := switchGroup_failure_unchanged env0 "nope" dupState
    [dupItemA, dupItemB] rfl
  exact h.1 (by decide)

/-- Counterexample for claim C6 as stated: switching to type `"daily"` in a
config holding two items of that type completes successfully but leaves two
items flagged `isDefault`, not exactly the selected one. -/
theorem switchGroup_duplicate_type_counterexample :
    (switchGroup env0 "daily" dupState).2 = .ok () ∧
    ((switchGroup env0 "daily" dupState).1.sm.cache.vvGroupConfig.getD
      []).countP (fun g => g.isDefault) = 2 := by
  constructor <;> rfl

/-- Claim C6 (amended): For a stored config with a first match of the requested
type carrying a non-empty API key, `switchGroup` succeeds; the stored config
is replaced so that an item has `isDefault = true` exactly when its `type`
equals the requested type (hence exactly the selected item whenever types
are unique); the first matching item's `apiKey` and `defaultModelId` (for
both plan and act modes) are applied to the host settings; the base URL is
set to that item's `apiBaseUrl` when it is non-empty and dev mode is off
(dev mode substitutes the dev base URL, and a falsy URL leaves the previous
value); all writes are flushed; and a status update is broadcast to every
subscriber. -/
theorem switchGroup_success (env : Env) (groupType : String)
    (s : ServiceState) (cfg : VVGroupConfig) (tg : VVGroupItem)
    (hcfg : s.sm.cache.vvGroupConfig = some cfg)
    (hfind : cfg.find? (fun g => g.type == groupType) = some tg)
    (hkey : jsFalsyStr tg.apiKey = false) :
    (switchGroup env groupType s).2 = .ok () ∧
    (switchGroup env groupType s).1.sm.cache.vvGroupConfig =
      some (cfg.map (fun g => { g with isDefault := g.type == groupType })) ∧
    (∀ g ∈ ((switchGroup env groupType s).1.sm.cache.vvGroupConfig.getD []),
      g.isDefault = (g.type == groupType)) ∧
    (switchGroup env groupType s).1.sm.cache.apiKey = tg.apiKey ∧
    (switchGroup env groupType s).1.sm.cache.planModeApiModelId =
      tg.defaultModelId ∧
    (switchGroup env groupType s).1.sm.cache.actModeApiModelId =
      tg.defaultModelId ∧
    (switchGroup env groupType s).1.sm.cache.anthropicBaseUrl =
      (if jsFalsyStr (if env.isDev then some env.devBaseUrl else tg.apiBaseUrl)
       then s.sm.cache.anthropicBaseUrl
       else if env.isDev then some env.devBaseUrl else tg.apiBaseUrl) ∧
    (switchGroup env groupType s).1.sm.disk =
      (switchGroup env groupType s).1.sm.cache ∧
    (switchGroup env groupType s).1.deliveryLog =
      s.deliveryLog ++ s.subscribers.map
        (fun sub => (sub.id, s.sm.cache.vvUserInfo,
          sub.deliver s.sm.cache.vvUserInfo)) := by
  simp only [switchGroup, hcfg, hfind, hkey, Bool.false_eq_true, if_false,
    applyGroupConfig, flushPendingState, sendAuthStatusUpdate, getInfo]
  refine ⟨trivial, ?_, ?_, ?_, ?_, ?_, ?_, ?_, ?_⟩
  · split <;> split <;> rfl
  · split <;> split <;>
      · intro g hg
        simp only [Option.getD_some] at hg
        obtain ⟨g0, -, rfl⟩ := List.mem_map.mp hg
        rfl
  · split <;> split <;> rfl
  · split <;> split <;> rfl
  · split <;> split <;> rfl
  · split <;> split <;> simp_all
  · trivial
  · split <;> split <;> simp

/-- Witness for C6 (amended): switching to `"daily"` in the duplicated-type
state succeeds and flags both `"daily"` items as default. -/
theorem switchGroup_success_witness :
    (switchGroup env0 "daily" dupState).2 = .ok () ∧
    (switchGroup env0 "daily" dupState).1.sm.cache.vvGroupConfig =
      some [{ dupItemA with isDefault := true },
            { dupItemB with isDefault := true }] ∧
    (switchGroup env0 "daily" dupState).1.sm.cache.apiKey = some "k1" := by
  have h := switchGroup_success env0 "daily" dupState [dupItemA, dupItemB]
    dupItemA rfl (by decide) (by decide)
  exact ⟨h.1, by simpa using h.2.1, by simpa using h.2.2.2.1⟩

/-- Claim C8: `handleDeauth` unconditionally clears the access token, refresh
token, user info, user config and the transient session keys, flushes the
deletions to disk, drops the authenticated flag, and broadcasts a status
update carrying no user to every subscriber; afterwards `getAccessToken`
returns nothing and `isAuthenticated` is false. -/
theorem handleDeauth_clears_all (p : Provider) (s : ServiceState) :
    (handleDeauth p s).sm.cache.accessToken = none ∧
    (handleDeauth p s).sm.cache.refreshToken = none ∧
    (handleDeauth p s).sm.cache.vvUserInfo = none ∧
    (handleDeauth p s).sm.cache.vvUserConfig = none ∧
    (handleDeauth p s).sm.cache.authState = none ∧
    (handleDeauth p s).sm.cache.codeVerifier = none ∧
    (handleDeauth p s).sm.disk = (handleDeauth p s).sm.cache ∧
    getAccessToken (handleDeauth p s) = none ∧
    isAuthenticated (handleDeauth p s) = false ∧
    (handleDeauth p s).authenticated = false ∧
    (handleDeauth p s).deliveryLog =
      s.deliveryLog ++ s.subscribers.map
        (fun sub => (sub.id, none, sub.deliver none)) := by
  refine ⟨rfl, rfl, rfl, rfl, rfl, rfl, rfl, rfl, rfl, rfl, ?_⟩
  simp [handleDeauth, sendAuthStatusUpdate, getInfo]

/-- Claim C9: `subscribeToAuthStatusUpdate` immediately delivers the current
status exactly once to the new subscriber and registers it; the returned
cancellation removes it from the registry (and only it); a broadcast
attempts delivery to every registered subscriber — a failing subscriber does
not prevent the attempt for any other — after which exactly the subscribers
whose delivery succeeded remain registered. -/
theorem subscription_registry_spec (sub : Subscriber) (i : Nat)
    (s : ServiceState) :
    (subscribeToAuthStatusUpdate sub s).deliveryLog =
      s.deliveryLog ++ [(sub.id, getInfo s, sub.deliver (getInfo s))] ∧
    (subscribeToAuthStatusUpdate sub s).subscribers = s.subscribers ++ [sub] ∧
    (∀ x ∈ (unsubscribe i s).subscribers, x.id ≠ i) ∧
    (∀ x ∈ s.subscribers, x.id ≠ i → x ∈ (unsubscribe i s).subscribers) ∧
    (∀ x ∈ s.subscribers,
      (x.id, getInfo s, x.deliver (getInfo s)) ∈
        (sendAuthStatusUpdate s).deliveryLog) ∧
    (∀ x ∈ s.subscribers, x.deliver (getInfo s) = true →
      x ∈ (sendAuthStatusUpdate s).subscribers) ∧
    (∀ x ∈ (sendAuthStatusUpdate s).subscribers,
      x ∈ s.subscribers ∧ x.deliver (getInfo s) = true) := by
  refine ⟨rfl, rfl, ?_, ?_, ?_, ?_, ?_⟩
  · intro x hx
    simp [unsubscribe, List.mem_filter] at hx
    exact hx.2
  · intro x hx hne
    simp [unsubscribe, List.mem_filter]
    exact ⟨hx, hne⟩
  · intro x hx
    have hmem := List.mem_map_of_mem
      (fun sub2 => (sub2.id, getInfo s, sub2.deliver (getInfo s))) hx
    exact List.mem_append.mpr (Or.inr hmem)
  · intro x hx hok
    exact List.mem_filter.mpr ⟨hx, hok⟩
  · intro x hx
    exact List.mem_filter.mp hx

/-- Witness for C9: in the concrete registry holding one always-succeeding
and one always-failing subscriber, a broadcast logs an attempt for both and
retains only the succeeding one. -/
theorem subscription_registry_spec_witness :
    ((subA.id, getInfo regState, subA.deliver (getInfo regState)) ∈
      (sendAuthStatusUpdate regState).deliveryLog) ∧
    ((subB.id, getInfo regState, subB.deliver (getInfo regState)) ∈
      (sendAuthStatusUpdate regState).deliveryLog) ∧
    subA ∈ (sendAuthStatusUpdate regState).subscribers := by
  have h := subscription_registry_spec subA 1 regState
  refine ⟨h.2.2.2.2.1 subA ?_, h.2.2.2.2.1 subB ?_,
    h.2.2.2.2.2.1 subA ?_ rfl⟩ <;> simp [regState]

/-- Claim C7: `createAuthRequest` persists the generated state and code
verifier, force-flushes them to durable storage (disk holds both after the
call), passes the read-back guard, and returns — and opens in the browser —
an authorization URL whose query parameters carry `state` equal to the
generated state and `code_challenge` equal to the challenge derived
deterministically from the generated verifier. -/
theorem createAuthRequest_spec (challengeOf : String → String)
    (authPageUrl state codeVerifier : String) (sm : StateManager)
    (hs : state ≠ "") (hv : codeVerifier ≠ "") :
    (createAuthRequest challengeOf authPageUrl state codeVerifier
      sm).sm.cache.authState = some state ∧
    (createAuthRequest challengeOf authPageUrl state codeVerifier
      sm).sm.cache.codeVerifier = some codeVerifier ∧
    (createAuthRequest challengeOf authPageUrl state codeVerifier
      sm).sm.disk.authState = some state ∧
    (createAuthRequest challengeOf authPageUrl state codeVerifier
      sm).sm.disk.codeVerifier = some codeVerifier ∧
    (createAuthRequest challengeOf authPageUrl state codeVerifier
      sm).result = .ok
        { base := authPageUrl
          params := [("state", state),
                     ("code_challenge", challengeOf codeVerifier),
                     ("redirect_uri", callbackUri)] } ∧
    (createAuthRequest challengeOf authPageUrl state codeVerifier
      sm).opened = some
        { base := authPageUrl
          params := [("state", state),
                     ("code_challenge", challengeOf codeVerifier),
                     ("redirect_uri", callbackUri)] } := by
  have hs' : state.isEmpty = false := by
    rw [Bool.eq_false_iff, Ne, String.isEmpty_iff]
    exact hs
  have hv' : codeVerifier.isEmpty = false := by
    rw [Bool.eq_false_iff, Ne, String.isEmpty_iff]
    exact hv
  simp [createAuthRequest, jsFalsyStr, flushPendingState, hs', hv']

/-- Witness for C7 at the concrete session `("S", "V")` with the concrete
challenge derivation `chalOf`. -/
theorem createAuthRequest_spec_witness :
    (createAuthRequest chalOf "https://vvcode.top/oauth/vscode/login" "S" "V"
      {}).result = .ok
        { base := "https://vvcode.top/oauth/vscode/login"
          params := [("state", "S"), ("code_challenge", chalOf "V"),
                     ("redirect_uri", callbackUri)] } := by
  have h := createAuthRequest_spec chalOf
    "https://vvcode.top/oauth/vscode/login" "S" "V" {}
    (by decide) (by decide)
  exact h.2.2.2.2.1

/-! ## Helper lemmas for the callback handler -/

theorem handleAuthCallback_processing (env : Env) (p : Provider)
    (code st : String) (s : ServiceState)
    (h : s.processingAuthCallback = true) :
    handleAuthCallback env p code st s = (s, .ok ()) := by
  simp [handleAuthCallback, h]

theorem handleAuthCallback_lastProcessed (env : Env) (p : Provider)
    (code st : String) (s : ServiceState)
    (h : s.lastProcessedCode = some code) :
    handleAuthCallback env p code st s = (s, .ok ()) := by
  unfold handleAuthCallback
  split
  · rfl
  · simp [h]

theorem handleAuthCallback_run (env : Env) (p : Provider) (code st : String)
    (s : ServiceState) (hp : s.processingAuthCallback = false)
    (hl : s.lastProcessedCode ≠ some code) :
    handleAuthCallback env p code st s =
      match handleAuthCallbackBody env p code st
          { s with processingAuthCallback := true } with
      | (s1, .ok ()) => ({ s1 with processingAuthCallback := false }, .ok ())
      | (s1, .error msg) =>
        ({ s1 with
            sm := flushPendingState
              { s1.sm with cache :=
                { s1.sm.cache with authState := none, codeVerifier := none } }
            processingAuthCallback := false },
          .error (classifyAuthError msg)) := by
  unfold handleAuthCallback
  rw [if_neg (by simp [hp]), if_neg (by simp [hl])]

theorem handleAuthCallbackBody_count_le (env : Env) (p : Provider)
    (code st : String) (s : ServiceState) :
    (handleAuthCallbackBody env p code st s).1.exchangeCount ≤
      s.exchangeCount + 1 := by
  unfold handleAuthCallbackBody
  dsimp only
  repeat' split
  all_goals simp [Nat.le_succ]

theorem handleAuthCallbackBody_ok_fields (env : Env) (p : Provider)
    (code st : String) (s s1 : ServiceState)
    (h : handleAuthCallbackBody env p code st s = (s1, .ok ())) :
    s1.lastProcessedCode = some code ∧ s1.sm.cache.authState = none ∧
    s1.sm.disk.authState = none ∧
    s1.processingAuthCallback = s.processingAuthCallback := by
  unfold handleAuthCallbackBody at h
  dsimp only at h
  repeat' split at h
  all_goals simp only [Prod.mk.injEq] at h
  all_goals first
    | exact Except.noConfusion h.2
    | (rw [← h.1]; simp)

theorem handleAuthCallbackBody_noSession (env : Env) (p : Provider)
    (code st : String) (s : ServiceState)
    (h1 : s.sm.cache.authState = none) (h2 : s.sm.disk.authState = none) :
    handleAuthCallbackBody env p code st s =
      (s, .error ("Authentication state not found. This may happen if the " ++
        "extension was reloaded. Please try logging in again.")) := by
  simp [handleAuthCallbackBody, h1, h2, jsFalsyStr]

theorem handleAuthCallback_count_le (env : Env) (p : Provider)
    (code st : String) (s : ServiceState) :
    (handleAuthCallback env p code st s).1.exchangeCount ≤
      s.exchangeCount + 1 := by
  by_cases hp : s.processingAuthCallback = true
  · rw [handleAuthCallback_processing env p code st s hp]
    exact Nat.le_succ _
  · have hp' : s.processingAuthCallback = false := by simpa using hp
    by_cases hl : s.lastProcessedCode = some code
    · rw [handleAuthCallback_lastProcessed env p code st s hl]
      exact Nat.le_succ _
    · rw [handleAuthCallback_run env p code st s hp' hl]
      rcases hb : handleAuthCallbackBody env p code st
        { s with processingAuthCallback := true } with ⟨s1, r⟩
      have hc := handleAuthCallbackBody_count_le env p code st
        { s with processingAuthCallback := true }
      rw [hb] at hc
      have hc' : s1.exchangeCount ≤ s.exchangeCount + 1 := by simpa using hc
      cases r with
      | ok u => cases u; simpa using hc'
      | error msg => simpa using hc'

theorem handleAuthCallback_noSession_count (env : Env) (p : Provider)
    (code st : String) (s : ServiceState)
    (h1 : s.sm.cache.authState = none) (h2 : s.sm.disk.authState = none) :
    (handleAuthCallback env p code st s).1.exchangeCount = s.exchangeCount := by
  by_cases hp : s.processingAuthCallback = true
  · rw [handleAuthCallback_processing env p code st s hp]
  · have hp' : s.processingAuthCallback = false := by simpa using hp
    by_cases hl : s.lastProcessedCode = some code
    · rw [handleAuthCallback_lastProcessed env p code st s hl]
    · rw [handleAuthCallback_run env p code st s hp' hl,
        handleAuthCallbackBody_noSession env p code st
          { s with processingAuthCallback := true } h1 h2]

theorem handleAuthCallbackBody_csrf (env : Env) (p : Provider)
    (code st : String) (s : ServiceState) (st0 : String)
    (hfound : (if jsFalsyStr s.sm.cache.authState then s.sm.disk.authState
               else s.sm.cache.authState) = some st0)
    (hst0 : st0 ≠ "") (hne : st ≠ st0) :
    handleAuthCallbackBody env p code st s =
      (s, .error "Invalid state parameter - possible CSRF attack") := by
  have hst0' : st0.isEmpty = false := by
    rw [Bool.eq_false_iff, Ne, String.isEmpty_iff]
    exact hst0
  simp only [handleAuthCallbackBody]
  rw [hfound]
  simp [jsFalsyStr, hst0', hne]

/-- Claim C1: When `handleAuthCallback(code, state)` finds a persisted session
(via the cache or the fallback read) whose recorded state differs from
`state`, the call raises the CSRF error (wrapped by the generic
classification) and neither `vv:accessToken` nor `vv:userId` is touched:
the cached secrets are exactly the prior ones, the flushed disk copies
equal the prior cached ones, and whenever cache and disk agreed beforehand
both are left unchanged. -/
theorem handleAuthCallback_csrf_mismatch (env : Env) (p : Provider)
    (code st : String) (s : ServiceState) (st0 : String)
    (hp : s.processingAuthCallback = false)
    (hl : s.lastProcessedCode ≠ some code)
    (hfound : (if jsFalsyStr s.sm.cache.authState then s.sm.disk.authState
               else s.sm.cache.authState) = some st0)
    (hst0 : st0 ≠ "") (hne : st ≠ st0) :
    (handleAuthCallback env p code st s).2 =
      .error "Authentication failed: Invalid state parameter - possible CSRF attack" ∧
    (handleAuthCallback env p code st s).1.sm.cache.accessToken =
      s.sm.cache.accessToken ∧
    (handleAuthCallback env p code st s).1.sm.cache.userId =
      s.sm.cache.userId ∧
    (handleAuthCallback env p code st s).1.sm.disk.accessToken =
      s.sm.cache.accessToken ∧
    (handleAuthCallback env p code st s).1.sm.disk.userId =
      s.sm.cache.userId ∧
    (s.sm.disk.accessToken = s.sm.cache.accessToken →
      (handleAuthCallback env p code st s).1.sm.disk.accessToken =
        s.sm.disk.accessToken) ∧
    (s.sm.disk.userId = s.sm.cache.userId →
      (handleAuthCallback env p code st s).1.sm.disk.userId =
        s.sm.disk.userId) := by
  rw [handleAuthCallback_run env p code st s hp hl,
    handleAuthCallbackBody_csrf env p code st
      { s with processingAuthCallback := true } st0 hfound hst0 hne]
  refine ⟨?_, rfl, rfl, rfl, rfl, fun h => h.symm, fun h => h.symm⟩
  show Except.error (classifyAuthError
    "Invalid state parameter - possible CSRF attack") = _
  rfl

/-- Witness for C1: session `("S","V")`, callback state `"WRONG"`. -/
theorem handleAuthCallback_csrf_mismatch_witness :
    (handleAuthCallback env0 okProvider "c" "WRONG" sessionState).2 =
      .error "Authentication failed: Invalid state parameter - possible CSRF attack" ∧
    (handleAuthCallback env0 okProvider "c" "WRONG"
      sessionState).1.sm.cache.accessToken = none := by
  have h := handleAuthCallback_csrf_mismatch env0 okProvider "c" "WRONG"
    sessionState "S" rfl (by decide) (by decide) (by decide) (by decide)
  exact ⟨h.1, h.2.1⟩

/-- Claim C3: For a callback call that is not short-circuited by the
re-entrancy guard: the processing-guard flag is false after the call
completes, whether it returns or throws; and whenever the call throws, the
thrown error is the classification of the failing step's original message
(the specific rate-limit text for a 429 / Too-Many-Requests substring,
otherwise the generic wrapper) and both transient session keys are cleared
in the cache and on disk before the error propagates. -/
theorem handleAuthCallback_failure_cleanup (env : Env) (p : Provider)
    (code st : String) (s : ServiceState)
    (hp : s.processingAuthCallback = false) :
    (handleAuthCallback env p code st s).1.processingAuthCallback = false ∧
    (∀ e, (handleAuthCallback env p code st s).2 = .error e →
      ∃ s1 raw,
        handleAuthCallbackBody env p code st
          { s with processingAuthCallback := true } = (s1, .error raw) ∧
        e = classifyAuthError raw ∧
        (handleAuthCallback env p code st s).1.sm.cache.authState = none ∧
        (handleAuthCallback env p code st s).1.sm.cache.codeVerifier = none ∧
        (handleAuthCallback env p code st s).1.sm.disk.authState = none ∧
        (handleAuthCallback env p code st s).1.sm.disk.codeVerifier = none) := by
  by_cases hl : s.lastProcessedCode = some code
  · rw [handleAuthCallback_lastProcessed env p code st s hl]
    exact ⟨hp, fun e he => absurd he (by simp)⟩
  · rw [handleAuthCallback_run env p code st s hp hl]
    rcases hb : handleAuthCallbackBody env p code st
      { s with processingAuthCallback := true } with ⟨s1, r⟩
    cases r with
    | ok u =>
      cases u
      exact ⟨rfl, fun e he => absurd he (by simp)⟩
    | error msg =>
      refine ⟨rfl, fun e he => ⟨s1, msg, rfl, ?_, rfl, rfl, rfl, rfl⟩⟩
      simpa using he.symm

/-- Witness for C3: the CSRF-mismatch failure at the concrete session. -/
theorem handleAuthCallback_failure_cleanup_witness :
    (handleAuthCallback env0 okProvider "c" "WRONG"
      sessionState).1.processingAuthCallback = false ∧
    ∃ s1 raw,
      handleAuthCallbackBody env0 okProvider "c" "WRONG"
        { sessionState with processingAuthCallback := true } =
          (s1, .error raw) ∧
      "Authentication failed: Invalid state parameter - possible CSRF attack" =
        classifyAuthError raw ∧
      (handleAuthCallback env0 okProvider "c" "WRONG"
        sessionState).1.sm.cache.authState = none ∧
      (handleAuthCallback env0 okProvider "c" "WRONG"
        sessionState).1.sm.cache.codeVerifier = none ∧
      (handleAuthCallback env0 okProvider "c" "WRONG"
        sessionState).1.sm.disk.authState = none ∧
      (handleAuthCallback env0 okProvider "c" "WRONG"
        sessionState).1.sm.disk.codeVerifier = none := by
  have h := handleAuthCallback_failure_cleanup env0 okProvider "c" "WRONG"
    sessionState rfl
  exact ⟨h.1, h.2 _ rfl⟩

/-- Claim C2: `handleAuthCallback` is idempotent under duplicate delivery:
a call while a callback is being processed, or whose `code` equals the last
successfully processed code, returns silently leaving the state untouched;
and any two consecutive calls with the same `code` (whatever the state
arguments) invoke the provider's token exchange at most once in total. -/
theorem handleAuthCallback_idempotent (env : Env) (p : Provider)
    (code st1 st2 : String) (s : ServiceState) :
    (s.processingAuthCallback = true →
      handleAuthCallback env p code st1 s = (s, .ok ())) ∧
    (s.lastProcessedCode = some code →
      handleAuthCallback env p code st1 s = (s, .ok ())) ∧
    (handleAuthCallback env p code st2
        (handleAuthCallback env p code st1 s).1).1.exchangeCount ≤
      s.exchangeCount + 1 := by
  refine ⟨fun h => handleAuthCallback_processing env p code st1 s h,
    fun h => handleAuthCallback_lastProcessed env p code st1 s h, ?_⟩
  by_cases hp : s.processingAuthCallback = true
  · rw [handleAuthCallback_processing env p code st1 s hp]
    exact handleAuthCallback_count_le env p code st2 s
  · have hp' : s.processingAuthCallback = false := by simpa using hp
    by_cases hl : s.lastProcessedCode = some code
    · rw [handleAuthCallback_lastProcessed env p code st1 s hl]
      exact handleAuthCallback_count_le env p code st2 s
    · rw [handleAuthCallback_run env p code st1 s hp' hl]
      rcases hb : handleAuthCallbackBody env p code st1
        { s with processingAuthCallback := true } with ⟨s1, r⟩
      have hc := handleAuthCallbackBody_count_le env p code st1
        { s with processingAuthCallback := true }
      rw [hb] at hc
      have hc' : s1.exchangeCount ≤ s.exchangeCount + 1 := by simpa using hc
      cases r with
      | ok u =>
        cases u
        have hok := handleAuthCallbackBody_ok_fields env p code st1 _ _ hb
        have hl2 : ({ s1 with processingAuthCallback := false } :
            ServiceState).lastProcessedCode = some code := hok.1
        rw [handleAuthCallback_lastProcessed env p code st2 _ hl2]
        exact hc'
      | error msg =>
        have h2 := handleAuthCallback_noSession_count env p code st2
          ({ s1 with
              sm := flushPendingState
                { s1.sm with cache :=
                  { s1.sm.cache with authState := none, codeVerifier := none } }
              processingAuthCallback := false }) rfl rfl
        rw [h2]
        exact hc'

/-- Witness for C2: a call in the processing state is a no-op, and the
two-call exchange bound holds at the concrete session state. -/
theorem handleAuthCallback_idempotent_witness :
    handleAuthCallback env0 okProvider "c" "S" procState =
      (procState, .ok ()) ∧
    (handleAuthCallback env0 okProvider "c" "S"
        (handleAuthCallback env0 okProvider "c" "S" sessionState).1).1.exchangeCount ≤
      sessionState.exchangeCount + 1 :=
  ⟨(handleAuthCallback_idempotent env0 okProvider "c" "S" "S" procState).1 rfl,
   (handleAuthCallback_idempotent env0 okProvider "c" "S" "S" sessionState).2.2⟩

theorem handleAuthCallbackBody_userInfoError (env : Env) (p : Provider)
    (code st : String) (s : ServiceState) (v : String) (ai : VVAuthInfo)
    (msg : String)
    (hst : s.sm.cache.authState = some st) (hstne : st ≠ "")
    (hv : s.sm.cache.codeVerifier = some v) (hvne : v ≠ "")
    (hex : p.exchangeCodeForToken code v st = .ok ai)
    (hui : p.getUserInfo ai.accessToken ai.userId = .error msg) :
    handleAuthCallbackBody env p code st s =
      ({ s with
          sm := { s.sm with cache :=
            { s.sm.cache with
              accessToken := some ai.accessToken
              userId := some (toString ai.userId) } }
          exchangeCount := s.exchangeCount + 1 }, .error msg) := by
  have hstne' : st.isEmpty = false := by
    rw [Bool.eq_false_iff, Ne, String.isEmpty_iff]
    exact hstne
  have hvne' : v.isEmpty = false := by
    rw [Bool.eq_false_iff, Ne, String.isEmpty_iff]
    exact hvne
  simp only [handleAuthCallbackBody]
  rw [hst, hv]
  simp [jsFalsyStr, hstne', hvne', hex, hui]

/-- Claim C10: When the token exchange succeeds but the required user-info
fetch fails, `handleAuthCallback` raises the wrapped authentication-failed
error, yet the exchange's secret writes survive: the cleanup flush persists
the new access token and user id to disk, `getAccessToken` returns the new
token and `isAuthenticated` is true despite the reported failure. -/
theorem handleAuthCallback_partial_failure_persists (env : Env) (p : Provider)
    (code st : String) (s : ServiceState) (v : String) (ai : VVAuthInfo)
    (msg : String)
    (hp : s.processingAuthCallback = false)
    (hl : s.lastProcessedCode ≠ some code)
    (hst : s.sm.cache.authState = some st) (hstne : st ≠ "")
    (hv : s.sm.cache.codeVerifier = some v) (hvne : v ≠ "")
    (hex : p.exchangeCodeForToken code v st = .ok ai)
    (htok : ai.accessToken ≠ "")
    (hui : p.getUserInfo ai.accessToken ai.userId = .error msg)
    (hm1 : jsIncludes msg "Too Many Requests" = false)
    (hm2 : jsIncludes msg "429" = false) :
    (handleAuthCallback env p code st s).2 =
      .error ("Authentication failed: " ++ msg) ∧
    (handleAuthCallback env p code st s).1.sm.cache.accessToken =
      some ai.accessToken ∧
    (handleAuthCallback env p code st s).1.sm.cache.userId =
      some (toString ai.userId) ∧
    (handleAuthCallback env p code st s).1.sm.disk.accessToken =
      some ai.accessToken ∧
    (handleAuthCallback env p code st s).1.sm.disk.userId =
      some (toString ai.userId) ∧
    getAccessToken (handleAuthCallback env p code st s).1 =
      some ai.accessToken ∧
    isAuthenticated (handleAuthCallback env p code st s).1 = true := by
  have htok' : ai.accessToken.isEmpty = false := by
    rw [Bool.eq_false_iff, Ne, String.isEmpty_iff]
    exact htok
  rw [handleAuthCallback_run env p code st s hp hl,
    handleAuthCallbackBody_userInfoError env p code st
      { s with processingAuthCallback := true } v ai msg hst hstne hv hvne
      hex hui]
  refine ⟨?_, rfl, rfl, rfl, rfl, rfl, ?_⟩
  · show Except.error (classifyAuthError msg) = _
    simp [classifyAuthError, hm1, hm2]
  · simp [isAuthenticated, jsFalsyStr, htok']

/-- Witness for C10: the provider whose user-info fetch fails, at the
concrete session state. -/
theorem handleAuthCallback_partial_failure_persists_witness :
    (handleAuthCallback env0 failUserInfoProvider "c" "S" sessionState).2 =
      .error "Authentication failed: user info unavailable" ∧
    getAccessToken
      (handleAuthCallback env0 failUserInfoProvider "c" "S" sessionState).1 =
      some "tok" ∧
    isAuthenticated
      (handleAuthCallback env0 failUserInfoProvider "c" "S" sessionState).1 =
      true := by
  have h := handleAuthCallback_partial_failure_persists env0
    failUserInfoProvider "c" "S" sessionState "V"
    { accessToken := "tok", userId := 7 } "user info unavailable"
    rfl (by decide) rfl (by decide) rfl (by decide) rfl (by decide) rfl
    (by decide) (by decide)
  exact ⟨h.1, h.2.2.2.2.2.1, h.2.2.2.2.2.2⟩

/-- Counterexample for claim C4 as stated: a successful callback whose
group-config fetch returned a non-empty config with no item flagged
`isDefault` persists that config verbatim, so no item — not exactly one —
has `isDefault = true` afterwards. -/
theorem handleAuthCallback_group_default_counterexample :
    (handleAuthCallback env0 okProvider "c" "S" sessionState).2 = .ok () ∧
    (handleAuthCallback env0 okProvider "c" "S"
      sessionState).1.sm.cache.vvGroupConfig = some [okGroupItem] ∧
    ((handleAuthCallback env0 okProvider "c" "S"
      sessionState).1.sm.cache.vvGroupConfig.getD []).countP
        (fun g => g.isDefault) = 0 :=
  ⟨rfl, rfl, rfl⟩

/-- Claim C4 (amended): After a successful `handleAuthCallback` whose
group-config fetch succeeded, the persisted `GroupConfig` equals the fetched
one verbatim (its `isDefault` flags are not normalised, so it has exactly one
default item only when the fetched config does), it is flushed to disk, and
when the fetched config's first `isDefault` item carries a non-empty API key
that item's settings are the ones applied to the host's active API settings:
its `apiKey`, its `defaultModelId` for both plan and act modes, and its base
URL when non-empty and dev mode is off (dev mode substitutes the dev base
URL; a falsy URL leaves the previous value).  Otherwise — the first flagged
item's key is empty/absent, or no item is flagged — none of the host API
settings (apiKey secret, model ids, base URL) change. -/
theorem handleAuthCallback_group_persisted (env : Env) (p : Provider)
    (code st : String) (s : ServiceState) (v : String) (ai : VVAuthInfo)
    (ui : VVUserInfo) (ucr : Except String VVUserConfig) (cfg : VVGroupConfig)
    (hp : s.processingAuthCallback = false)
    (hl : s.lastProcessedCode ≠ some code)
    (hst : s.sm.cache.authState = some st) (hstne : st ≠ "")
    (hv : s.sm.cache.codeVerifier = some v) (hvne : v ≠ "")
    (hex : p.exchangeCodeForToken code v st = .ok ai)
    (hui : p.getUserInfo ai.accessToken ai.userId = .ok ui)
    (huc : p.getUserConfig ai.accessToken ai.userId = ucr)
    (hgc : p.getGroupTokens ai.accessToken ai.userId = .ok cfg) :
    (handleAuthCallback env p code st s).2 = .ok () ∧
    (handleAuthCallback env p code st s).1.sm.cache.vvGroupConfig =
      some cfg ∧
    (handleAuthCallback env p code st s).1.sm.disk.vvGroupConfig =
      some cfg ∧
    (∀ g, cfg.find? (fun g0 : VVGroupItem => g0.isDefault) = some g →
      jsFalsyStr g.apiKey = false →
      (handleAuthCallback env p code st s).1.sm.cache.apiKey = g.apiKey ∧
      (handleAuthCallback env p code st s).1.sm.cache.planModeApiModelId =
        g.defaultModelId ∧
      (handleAuthCallback env p code st s).1.sm.cache.actModeApiModelId =
        g.defaultModelId ∧
      (handleAuthCallback env p code st s).1.sm.cache.anthropicBaseUrl =
        (if jsFalsyStr (if env.isDev then some env.devBaseUrl
                        else g.apiBaseUrl)
         then s.sm.cache.anthropicBaseUrl
         else if env.isDev then some env.devBaseUrl else g.apiBaseUrl)) ∧
    (∀ g, cfg.find? (fun g0 : VVGroupItem => g0.isDefault) = some g →
      jsFalsyStr g.apiKey = true →
      (handleAuthCallback env p code st s).1.sm.cache.apiKey =
        s.sm.cache.apiKey ∧
      (handleAuthCallback env p code st s).1.sm.cache.planModeApiModelId =
        s.sm.cache.planModeApiModelId ∧
      (handleAuthCallback env p code st s).1.sm.cache.actModeApiModelId =
        s.sm.cache.actModeApiModelId ∧
      (handleAuthCallback env p code st s).1.sm.cache.anthropicBaseUrl =
        s.sm.cache.anthropicBaseUrl) ∧
    (cfg.find? (fun g0 : VVGroupItem => g0.isDefault) = none →
      (handleAuthCallback env p code st s).1.sm.cache.apiKey =
        s.sm.cache.apiKey ∧
      (handleAuthCallback env p code st s).1.sm.cache.planModeApiModelId =
        s.sm.cache.planModeApiModelId ∧
      (handleAuthCallback env p code st s).1.sm.cache.actModeApiModelId =
        s.sm.cache.actModeApiModelId ∧
      (handleAuthCallback env p code st s).1.sm.cache.anthropicBaseUrl =
        s.sm.cache.anthropicBaseUrl) := by
  have hstne' : st.isEmpty = false := by
    rw [Bool.eq_false_iff, Ne, String.isEmpty_iff]
    exact hstne
  have hvne' : v.isEmpty = false := by
    rw [Bool.eq_false_iff, Ne, String.isEmpty_iff]
    exact hvne
  rw [handleAuthCallback_run env p code st s hp hl]
  rcases hfd : cfg.find? (fun g0 : VVGroupItem => g0.isDefault) with _ | g
  · cases ucr with
    | ok uc =>
      simp [handleAuthCallbackBody, hst, hv, hstne', hvne',
        hex, hui, huc, hgc, hfd]
    | error ue =>
      simp [handleAuthCallbackBody, hst, hv, hstne', hvne',
        hex, hui, huc, hgc, hfd]
  · by_cases hk : jsFalsyStr g.apiKey = true
    · cases ucr with
      | ok uc =>
        simp [handleAuthCallbackBody, hst, hv, hstne', hvne',
          hex, hui, huc, hgc, hfd, hk]
      | error ue =>
        simp [handleAuthCallbackBody, hst, hv, hstne', hvne',
          hex, hui, huc, hgc, hfd, hk]
    · have hk' : jsFalsyStr g.apiKey = false := by simpa using hk
      cases ucr with
      | ok uc =>
        simp [handleAuthCallbackBody, hst, hv, hstne', hvne',
          hex, hui, huc, hgc, hfd, hk', applyGroupConfig]
        repeat' split
        all_goals simp_all
      | error ue =>
        simp [handleAuthCallbackBody, hst, hv, hstne', hvne',
          hex, hui, huc, hgc, hfd, hk', applyGroupConfig]
        repeat' split
        all_goals simp_all

/-- Witness for C4 (amended): a provider returning a config whose second
item is the default; the callback persists the config verbatim and applies
that item's API key and base URL. -/
theorem handleAuthCallback_group_persisted_witness :
    (handleAuthCallback env0 groupProvider "c" "S" sessionState).2 = .ok () ∧
    (handleAuthCallback env0 groupProvider "c" "S"
      sessionState).1.sm.cache.vvGroupConfig =
        some [okGroupItem, defaultGroupItem] ∧
    (handleAuthCallback env0 groupProvider "c" "S"
      sessionState).1.sm.cache.apiKey = some "gk" ∧
    (handleAuthCallback env0 groupProvider "c" "S"
      sessionState).1.sm.cache.anthropicBaseUrl = some "gb" := by
  have h := handleAuthCallback_group_persisted env0 groupProvider "c" "S"
    sessionState "V" { accessToken := "tok", userId := 7 }
    { username := "alice" } (.ok { payload := "cfg" })
    [okGroupItem, defaultGroupItem]
    rfl (by decide) rfl (by decide) rfl (by decide) rfl rfl rfl rfl
  have h4 := h.2.2.2.1 defaultGroupItem (by decide) (by decide)
  refine ⟨h.1, h.2.1, ?_, ?_⟩
  · simpa [defaultGroupItem] using h4.1
  · simpa [defaultGroupItem, env0, Env.isDev] using h4.2.2.2

end VVAuth
